import Mathlib

/-!
Verification development for `admin_insights_etl.py`, a Tableau-to-Snowflake
ETL pipeline.  The Python source is shallowly embedded: strings become lists
of characters (Python string methods are modelled character-wise for the
ASCII inputs the program handles), the local filesystem becomes an
association list from paths to file data, and the external collaborators
(Hyper engine, Snowflake warehouse) become explicit oracles describing
which of their operations succeed.  Python exceptions become an `Except`
result paired with the filesystem state at the moment of the raise (Python
exceptions do not roll back filesystem writes).
-/

set_option autoImplicit false

deriving instance DecidableEq for Except

/-- Python strings, modelled as lists of characters. -/
abbrev PyStr := List Char

/-- Embed a Lean string literal as a `PyStr`. -/
def str (s : String) : PyStr := s.data

/-- ASCII lower-casing of one character, as Python `str.lower` acts on the
ASCII names this program handles. -/
def lowerChar (c : Char) : Char :=
  if 'A' ≤ c ∧ c ≤ 'Z' then Char.ofNat (c.toNat + 32) else c

/-- ASCII upper-casing of one character, as Python `str.upper` acts on ASCII. -/
def upperChar (c : Char) : Char :=
  if 'a' ≤ c ∧ c ≤ 'z' then Char.ofNat (c.toNat - 32) else c

/-- Python `s.lower()` on ASCII strings. -/
def pyLower (s : PyStr) : PyStr := s.map lowerChar

/-- Python `s.upper()` on ASCII strings. -/
def pyUpper (s : PyStr) : PyStr := s.map upperChar

/-- Python `s.replace(a, b)` for one-character `a` and `b`. -/
def replaceChar (a b : Char) (s : PyStr) : PyStr :=
  s.map (fun c => if c = a then b else c)

/-- Fuel-driven worker for Python `s.replace(pat, rep)` with a non-empty
pattern: scan left to right, replace every non-overlapping occurrence. -/
def replaceSubFuel (pat rep : PyStr) : Nat → PyStr → PyStr
  | _, [] => []
  | 0, s => s
  | fuel + 1, c :: rest =>
    if pat.isPrefixOf (c :: rest) then
      rep ++ replaceSubFuel pat rep fuel (rest.drop (pat.length - 1))
    else
      c :: replaceSubFuel pat rep fuel rest

/-- Python `s.replace(pat, rep)` (all occurrences, left to right); the fuel
`s.length` suffices because every step consumes at least one character. -/
def replaceSub (pat rep s : PyStr) : PyStr := replaceSubFuel pat rep s.length s

/-- Worker for `basename`: keep the component accumulated since the last
path separator. -/
def basenameAux (cur : PyStr) : PyStr → PyStr
  | [] => cur
  | c :: rest => if c = '/' then basenameAux [] rest else basenameAux (cur ++ [c]) rest

/-- Python `pathlib.Path(p).name` for the plain file paths this program
produces: the last `/`-separated component. -/
def basename (p : PyStr) : PyStr := basenameAux [] p

/-- File contents: a raw byte string, or a zip archive holding named entries
(`tableauserverclient` downloads `.tdsx` archives, which `zipfile` reads as
a list of (entry name, entry bytes) pairs in archive enumeration order). -/
inductive FData where
  | bytes (content : List Nat)
  | archive (entries : List (PyStr × List Nat))
deriving Repr, DecidableEq

/-- The local filesystem: an association list from paths to file data
(first binding wins; the operations below keep keys unique). -/
abbrev Fs := List (PyStr × FData)

/-- Look a path up in the filesystem. -/
def Fs.lookup (fs : Fs) (p : PyStr) : Option FData :=
  match fs with
  | [] => none
  | (q, d) :: rest => if q = p then some d else Fs.lookup rest p

/-- Write (create or overwrite) a file. -/
def Fs.write (fs : Fs) (p : PyStr) (d : FData) : Fs :=
  match fs with
  | [] => [(p, d)]
  | (q, e) :: rest => if q = p then (q, d) :: rest else (q, e) :: Fs.write rest p d

/-- Delete a file (`os.remove`); removing an absent path is a no-op here,
callers that must model Python's `FileNotFoundError` check existence first. -/
def Fs.remove (fs : Fs) (p : PyStr) : Fs :=
  match fs with
  | [] => []
  | (q, e) :: rest => if q = p then Fs.remove rest p else (q, e) :: Fs.remove rest p

/-- The Python exceptions the script raises, one constructor per exception
class appearing in `admin_insights_etl.py`. -/
inductive PyErr where
  | fileNotFound (msg : PyStr)
  | yamlError (msg : PyStr)
  | keyError (key : PyStr)
  | badZipFile (msg : PyStr)
  | pyException (msg : PyStr)
  | hyperError (msg : PyStr)
  | databaseError (msg : PyStr)
  | runtimeError (msg : PyStr)
deriving Repr, DecidableEq

/-- The message text carried by an exception, used when an outer handler
interpolates the caught exception into a new message. -/
def PyErr.msg : PyErr → PyStr
  | .fileNotFound m => m
  | .yamlError m => m
  | .keyError k => k
  | .badZipFile m => m
  | .pyException m => m
  | .hyperError m => m
  | .databaseError m => m
  | .runtimeError m => m

/-- `true` iff an `Except` result is `ok`. -/
def isOkE {ε α : Type} : Except ε α → Bool
  | .ok _ => true
  | .error _ => false

/-- Generic association-list lookup (Python `dict.get`: the keys of the
dictionaries the script reads are unique, so first binding wins is faithful). -/
def alookup {β : Type} (l : List (PyStr × β)) (k : PyStr) : Option β :=
  match l with
  | [] => none
  | (q, v) :: rest => if q = k then some v else alookup rest k

/-- The parsed state of `config.yml` as `get_configs` encounters it: the
file can be absent (`open` raises `FileNotFoundError`), fail to parse
(`yaml.safe_load` raises `yaml.YAMLError`), or parse to a top-level mapping
whose values are themselves key-value mappings of strings. -/
inductive ConfigFile where
  | missing
  | unparseFail (msg : PyStr)
  | parsed (doc : List (PyStr × List (PyStr × PyStr)))
deriving Repr, DecidableEq

/-- `get_configs` (lines 13-34): read `config.yml`, return
`config_yaml['config']`.  Only `FileNotFoundError` and `yaml.YAMLError` are
caught and re-raised with a wrapped message; the subscript `['config']`
raises `KeyError` when the key is absent, and no handler catches it. -/
def get_configs (file : ConfigFile) : Except PyErr (List (PyStr × PyStr)) :=
  match file with
  | .missing =>
    .error (.fileNotFound (str "config.yml file not found. Please ensure the file is present."))
  | .unparseFail m =>
    .error (.yamlError (str "Error parsing config.yml: " ++ m))
  | .parsed doc =>
    match alookup doc (str "config") with
    | some cfg => .ok cfg
    | none => .error (.keyError (str "config"))

/-- The deterministic local target path of `extract_hyper_files`
(lines 99-101): the archive's base name placed in the current working
directory (paths here are cwd-relative), with `.tdsx` replaced by `.hyper`. -/
def hyper_target_path (tdsx_file_path : PyStr) : PyStr :=
  replaceSub (str ".tdsx") (str ".hyper") (basename tdsx_file_path)

/-- `extract_hyper_files` (lines 80-124): open the `.tdsx` archive, and for
EVERY entry whose name ends with `.hyper`, write that entry's bytes to the
single target path (each iteration reopens the same path with mode `wb`,
truncating what the previous iteration wrote).  If no entry matched, raise
`FileNotFoundError`, which the blanket `except Exception` handler re-wraps
as a plain `Exception`; otherwise delete the archive and return the target
path (`hyper_files[0]`; every appended element is the same `dest_file.name`).
A path holding raw bytes instead of an archive raises
`zipfile.BadZipFile`; a missing path raises `FileNotFoundError` from `open`,
which the blanket handler also re-wraps.  The result pairs the Python
return/raise with the filesystem as the function leaves it. -/
def extract_hyper_files (fs : Fs) (tdsx_file_path : PyStr) : Except PyErr PyStr × Fs :=
  match Fs.lookup fs tdsx_file_path with
  | none =>
    (.error (.pyException (str "An error occurred while extracting .hyper files: file not found")), fs)
  | some (.bytes _) =>
    (.error (.badZipFile (tdsx_file_path ++ str " is not a valid .tdsx file or is corrupted.")), fs)
  | some (.archive entries) =>
    let target_path := hyper_target_path tdsx_file_path
    let hyper_contents := (entries.filter (fun e => List.isSuffixOf (str ".hyper") e.1)).map (fun e => e.2)
    let fs1 := hyper_contents.foldl (fun acc c => Fs.write acc target_path (.bytes c)) fs
    if hyper_contents.isEmpty then
      (.error (.pyException (str "An error occurred while extracting .hyper files: No .hyper file found in the .tdsx archive.")), fs1)
    else
      (.ok target_path, Fs.remove fs1 tdsx_file_path)

/-- The behavior of the external Hyper engine for one conversion: whether
`HyperProcess`/`Connection` come up, whether the `copy "public"."Extract"`
command succeeds, and the parquet bytes the dump produces when it does. -/
structure HyperEnv where
  startOk : Bool
  dumpOk : Bool
  dumpContent : List Nat
deriving Repr, DecidableEq

/-- `export_hyper_to_parquet` (lines 127-160): start a Hyper engine, dump
the extract's table to the parquet path, then `os.remove` the hyper file —
the removal happens only after the dump succeeded.  Engine failures raise
`HyperException` (re-raised with a wrapped message); a filesystem failure at
the removal (file vanished) raises `FileNotFoundError`, which the blanket
handler re-wraps as `RuntimeError`.  On any failure the function performs no
cleanup of the hyper file. -/
def export_hyper_to_parquet (env : HyperEnv) (fs : Fs) (hyper_file parquet_file : PyStr) :
    Except PyErr Unit × Fs :=
  if env.startOk = false then
    (.error (.hyperError (str "An error occurred with the Hyper process: the Hyper engine failed to start")), fs)
  else if env.dumpOk = false then
    (.error (.hyperError (str "An error occurred with the Hyper process: the copy command failed")), fs)
  else
    let fs1 := Fs.write fs parquet_file (.bytes env.dumpContent)
    if (Fs.lookup fs1 hyper_file).isSome then
      (.ok (), Fs.remove fs1 hyper_file)
    else
      (.error (.runtimeError (str "An error occurred while exporting .hyper to .parquet: hyper file not found")), fs1)

/-- One Snowflake SQL command issued by `pq_to_snowflake`, one constructor
per `cur.execute` call (lines 197-232), carrying the names the source
interpolates into the SQL text.  `createTableInferSchemaIgnoreCase` stands
for the `CREATE OR REPLACE TRANSIENT TABLE ... USING TEMPLATE
(... INFER_SCHEMA(LOCATION=>stage, FILE_FORMAT=>fmt, IGNORE_CASE => TRUE))`
statement, and `copyIntoMatchCaseInsensitivePurge` for the `COPY INTO ...
MATCH_BY_COLUMN_NAME = CASE_INSENSITIVE PURGE=TRUE` statement. -/
inductive SqlCmd where
  | createSchemaIfNotExists (schema : PyStr)
  | createTempFileFormatParquet (fmt : PyStr)
  | createTempStage (schema stage fmt : PyStr)
  | putFile (file stage : PyStr)
  | dropTableIfExists (schema table : PyStr)
  | createTableInferSchemaIgnoreCase (schema table stage fmt : PyStr)
  | copyIntoMatchCaseInsensitivePurge (schema table stage fmt : PyStr)
deriving Repr, DecidableEq

/-- The seven Snowflake commands of `pq_to_snowflake`, in source order, with
the derived file-format and stage names of lines 183-184. -/
def snowflakeCmds (target_table target_schema parquet_file : PyStr) : List SqlCmd :=
  let file_format := target_table ++ str "_parquet_fmt"
  let stage := str "stage_" ++ pyLower target_schema ++ str "_" ++ target_table
  [ .createSchemaIfNotExists target_schema,
    .createTempFileFormatParquet file_format,
    .createTempStage target_schema stage file_format,
    .putFile parquet_file stage,
    .dropTableIfExists target_schema target_table,
    .createTableInferSchemaIgnoreCase target_schema target_table stage file_format,
    .copyIntoMatchCaseInsensitivePurge target_schema target_table stage file_format ]

/-- Issue commands in order against the warehouse oracle `wh` (command
index ↦ does it succeed); stop at the first failure.  Returns whether every
command succeeded, together with the commands actually issued. -/
def runCmds (wh : Nat → Bool) : List SqlCmd → Nat → Bool × List SqlCmd
  | [], _ => (true, [])
  | c :: rest, i =>
    if wh i then
      let r := runCmds wh rest (i + 1)
      (r.1, c :: r.2)
    else
      (false, [c])

/-- `pq_to_snowflake` (lines 163-239): check the parquet file exists (a
missing file raises `FileNotFoundError`, re-wrapped by the blanket handler
as `RuntimeError`), issue the seven Snowflake commands in order (a failing
command raises `snowflake.connector.errors.DatabaseError`, re-raised with a
wrapped message), and only after all seven succeed `os.remove` the local
parquet file.  Each command is a separate `cur.execute`; no
BEGIN/COMMIT wraps the sequence.  Returns the Python outcome, the commands
issued, and the resulting filesystem. -/
def pq_to_snowflake (wh : Nat → Bool) (fs : Fs) (target_table target_schema parquet_file : PyStr) :
    Except PyErr Unit × List SqlCmd × Fs :=
  if (Fs.lookup fs parquet_file).isNone then
    (.error (.runtimeError (str "An error occurred during the Snowflake operation: Parquet file does not exist.")), [], fs)
  else
    let r := runCmds wh (snowflakeCmds target_table target_schema parquet_file) 0
    if r.1 then
      (.ok (), r.2, Fs.remove fs parquet_file)
    else
      (.error (.databaseError (str "An error occurred while uploading data to Snowflake")), r.2, fs)

/-- The target-name derivation of `load_data_source` (lines 261, 266-273):
lower-case the data source name, replace spaces with underscores, prepend
the optional prefix with an underscore when the prefix is truthy (Python
`if table_prefix:` — `None` and the empty string are falsy), then upper-case
the table name and the schema name. -/
def derive_target_name (table_pref : Option PyStr) (target_schema_name datasource_name : PyStr) :
    PyStr × PyStr :=
  let ds_name := replaceChar ' ' '_' (pyLower datasource_name)
  let target_table_name :=
    match table_pref with
    | some p => if p = [] then ds_name else p ++ str "_" ++ ds_name
    | none => ds_name
  (pyUpper target_table_name, pyUpper target_schema_name)

/-- The local columnar-file name `load_data_source` derives (lines 261-263):
the data source name lower-cased with spaces replaced by underscores, plus
`.parquet`. -/
def parquet_file_name (datasource_name : PyStr) : PyStr :=
  replaceChar ' ' '_' (pyLower datasource_name) ++ str ".parquet"

/-- One element of the list `download_data_source_file` returns: the id and
name of a Tableau data source and the local path of its downloaded `.tdsx`
archive. -/
structure TdsxData where
  datasource_id : PyStr
  datasource_name : PyStr
  tdsx_file : PyStr
deriving Repr, DecidableEq

/-- The `RuntimeError` wrapper of `load_data_source` (lines 277-279):
any exception from the per-item pipeline is re-raised as
`RuntimeError(f"An error occurred while processing the data source {name}: {e}")`. -/
def wrapItemError (datasource_name : PyStr) (e : PyErr) : PyErr :=
  .runtimeError (str "An error occurred while processing the data source " ++
    datasource_name ++ str ": " ++ e.msg)

/-- `load_data_source` (lines 242-279): the per-item pipeline.  Re-read the
configuration, derive `ds_name`, extract the hyper file from the archive,
export it to `{ds_name}.parquet`, derive the upper-cased target table and
schema names (a missing `target_schema` key makes `None.upper()` raise
`AttributeError`, caught by the blanket handler), and upload to Snowflake.
Any exception is wrapped by `wrapItemError` and re-raised; the filesystem is
returned as the stage that raised left it.  The engine oracle is a function
of the hyper file path (the engine opens that file as its database), the
warehouse oracle is as in `pq_to_snowflake`. -/
def load_data_source (cfgFile : ConfigFile) (henv : PyStr → HyperEnv) (wh : Nat → Bool)
    (fs : Fs) (tdsx_data : TdsxData) : Except PyErr Unit × Fs :=
  match get_configs cfgFile with
  | .error e => (.error (wrapItemError tdsx_data.datasource_name e), fs)
  | .ok configs =>
    let table_pref := alookup configs (str "target_table_prefix")
    let schema_val := alookup configs (str "target_schema")
    match extract_hyper_files fs tdsx_data.tdsx_file with
    | (.error e, fs1) => (.error (wrapItemError tdsx_data.datasource_name e), fs1)
    | (.ok hyper_file_name, fs1) =>
      let new_parquet_file := parquet_file_name tdsx_data.datasource_name
      match export_hyper_to_parquet (henv hyper_file_name) fs1 hyper_file_name new_parquet_file with
      | (.error e, fs2) => (.error (wrapItemError tdsx_data.datasource_name e), fs2)
      | (.ok _, fs2) =>
        match schema_val with
        | none =>
          (.error (wrapItemError tdsx_data.datasource_name
            (.pyException (str "AttributeError: NoneType object has no attribute upper"))), fs2)
        | some sch =>
          let names := derive_target_name table_pref sch tdsx_data.datasource_name
          match pq_to_snowflake wh fs2 names.1 names.2 new_parquet_file with
          | (.error e, _, fs3) => (.error (wrapItemError tdsx_data.datasource_name e), fs3)
          | (.ok _, _, fs3) => (.ok (), fs3)

/-- The observable result-collection semantics of `multiprocessing.Pool.map`
(line 291): the parent receives either the list of all per-item return
values, or — as soon as any worker raised — that exception re-raised in the
parent, with every other item's result discarded.  (The pool offers no
per-item error collection.) -/
def pool_map {α β : Type} (f : α → Except PyErr β) : List α → Except PyErr (List β)
  | [] => .ok []
  | x :: xs =>
    match f x with
    | .error e => .error e
    | .ok b =>
      match pool_map f xs with
      | .error e => .error e
      | .ok bs => .ok (b :: bs)

/-- The outcome of the `__main__` block: either `Pool.map` returned all
per-item results, or an exception reached the outer handler, which prints
it (lines 292-293) — no per-item success/failure summary exists. -/
inductive RunOutcome where
  | completed (results : List Unit)
  | printedError (e : PyErr)
deriving Repr, DecidableEq

/-- `true` iff the run produced the per-item result list. -/
def RunOutcome.isCompleted : RunOutcome → Bool
  | .completed _ => true
  | .printedError _ => false

/-- The `__main__` orchestration (lines 282-293) from the point the
descriptor list exists: map `load_data_source` over the items with the
worker pool; a worker's exception propagates out of `p.map` and is caught
and printed by the outer handler.  Each item is modelled against the initial
filesystem (items touch disjoint files named from their own descriptor). -/
def main_run (cfgFile : ConfigFile) (henv : PyStr → HyperEnv) (wh : Nat → Bool)
    (fs : Fs) (items : List TdsxData) : RunOutcome :=
  match pool_map (fun it => (load_data_source cfgFile henv wh fs it).1) items with
  | .ok rs => .completed rs
  | .error e => .printedError e

theorem Fs.lookup_write_self (fs : Fs) (p : PyStr) (d : FData) :
    Fs.lookup (Fs.write fs p d) p = some d := by
  induction fs with
  | nil => simp [Fs.write, Fs.lookup]
  | cons hd tl ih =>
    obtain ⟨q, e⟩ := hd
    by_cases hq : q = p
    · simp [Fs.write, Fs.lookup, hq]
    · simp [Fs.write, Fs.lookup, hq, ih]

theorem Fs.lookup_write_ne (fs : Fs) (p q : PyStr) (d : FData) (hne : q ≠ p) :
    Fs.lookup (Fs.write fs p d) q = Fs.lookup fs q := by
  induction fs with
  | nil => simp [Fs.write, Fs.lookup, Ne.symm hne]
  | cons hd tl ih =>
    obtain ⟨k, e⟩ := hd
    by_cases hk : k = p
    · subst hk
      simp [Fs.write, Fs.lookup, Ne.symm hne]
    · simp [Fs.write, Fs.lookup, hk, ih]

theorem Fs.lookup_remove_self (fs : Fs) (p : PyStr) :
    Fs.lookup (Fs.remove fs p) p = none := by
  induction fs with
  | nil => simp [Fs.remove, Fs.lookup]
  | cons hd tl ih =>
    obtain ⟨q, e⟩ := hd
    by_cases hq : q = p
    · simp [Fs.remove, Fs.lookup, hq, ih]
    · simp [Fs.remove, Fs.lookup, hq, ih]

theorem Fs.lookup_remove_ne (fs : Fs) (p q : PyStr) (hne : q ≠ p) :
    Fs.lookup (Fs.remove fs p) q = Fs.lookup fs q := by
  induction fs with
  | nil => simp [Fs.remove, Fs.lookup]
  | cons hd tl ih =>
    obtain ⟨k, e⟩ := hd
    by_cases hk : k = p
    · subst hk
      simp [Fs.remove, Fs.lookup, Ne.symm hne, ih]
    · simp [Fs.remove, Fs.lookup, hk, ih]

/-- Repeatedly writing the members of `l` to the same path leaves the last
member's bytes there (and an empty `l` leaves the filesystem untouched). -/
theorem Fs.lookup_foldl_write (target : PyStr) :
    ∀ (l : List (List Nat)) (fs : Fs),
      Fs.lookup (l.foldl (fun acc c => Fs.write acc target (.bytes c)) fs) target =
        match l.getLast? with
        | some c => some (.bytes c)
        | none => Fs.lookup fs target := by
  intro l
  induction l with
  | nil => intro fs; rfl
  | cons c rest ih =>
    intro fs
    rw [List.foldl_cons, ih]
    cases rest with
    | nil => simp [Fs.lookup_write_self]
    | cons c2 r2 => rfl

/-- When every issued command succeeded, the issued list is the whole
command list. -/
theorem runCmds_ok_eq (wh : Nat → Bool) :
    ∀ (l : List SqlCmd) (i : Nat), (runCmds wh l i).1 = true → (runCmds wh l i).2 = l := by
  intro l
  induction l with
  | nil => intro i _; rfl
  | cons c rest ih =>
    intro i hok
    by_cases hw : wh i
    · simp only [runCmds, hw, if_true] at hok ⊢
      rw [ih (i + 1) hok]
    · simp [runCmds, hw] at hok

/-! ## Concrete scenarios used by the claims -/

/-- A parsed `config.yml` whose `config` mapping carries only the required
`target_schema` key. -/
def cfgC1 : ConfigFile := .parsed [(str "config", [(str "target_schema", str "analytics")])]

/-- An engine oracle under which every conversion succeeds except the one
whose database is `b.hyper` (its copy command fails). -/
def henvC1 : PyStr → HyperEnv :=
  fun hy => { startOk := true, dumpOk := decide (hy ≠ str "b.hyper"), dumpContent := [9] }

/-- A warehouse oracle under which every command succeeds. -/
def whAllOk : Nat → Bool := fun _ => true

/-- Two downloaded archives, each holding one hyper entry. -/
def fsC1 : Fs :=
  [(str "a.tdsx", .archive [(str "x.hyper", [1])]),
   (str "b.tdsx", .archive [(str "y.hyper", [2])])]

/-- The descriptor whose pipeline succeeds end to end. -/
def itemA : TdsxData := ⟨str "idA", str "Alpha", str "a.tdsx"⟩

/-- The descriptor engineered to fail at the Convert stage. -/
def itemB : TdsxData := ⟨str "idB", str "Beta", str "b.tdsx"⟩

/-- An archive holding two hyper entries with different contents. -/
def fsC2 : Fs := [(str "a.tdsx", .archive [(str "x.hyper", [1]), (str "y.hyper", [2])])]

/-! ## Claims -/

/-- Claim C1 (code bug): the claim says a run with exactly one failing item
yields a `PipelineResult` with N-1 successes and 1 captured failure, no
failure being raised past the item boundary.  The code instead raises the
item's `RuntimeError` out of `Pool.map`, so the `__main__` handler prints a
single error and no per-item result collection exists: here item B fails at
the Convert stage, item A's pipeline succeeds in isolation, yet the run
completes with no result list. -/
theorem claim_C1_fail_fast :
    (main_run cfgC1 henvC1 whAllOk fsC1 [itemB, itemA]).isCompleted = false ∧
    isOkE (load_data_source cfgC1 henvC1 whAllOk fsC1 itemB).1 = false ∧
    isOkE (load_data_source cfgC1 henvC1 whAllOk fsC1 itemA).1 = true := by decide

/-- Claim C2, counterexample: with two matching entries `x.hyper ↦ [1]` and
`y.hyper ↦ [2]` in archive order, the returned file holds `[2]` — the LAST
matching entry's content, not the first's `[1]`, because each loop iteration
reopens the same target path in mode `wb` and overwrites it. -/
theorem claim_C2_counterexample :
    (extract_hyper_files fsC2 (str "a.tdsx")).1 = .ok (str "a.hyper") ∧
    Fs.lookup (extract_hyper_files fsC2 (str "a.tdsx")).2 (str "a.hyper")
      = some (.bytes [2]) ∧
    FData.bytes [2] ≠ FData.bytes [1] := by decide

/-- Claim C2 as amended: every matching entry is extracted in archive
enumeration order to the one deterministic target path, each write
overwriting the previous, so the returned file's byte content equals the
LAST matching entry's content. -/
theorem claim_C2_last_match (fs : Fs) (tdsx : PyStr) (entries : List (PyStr × List Nat))
    (c : List Nat)
    (harch : Fs.lookup fs tdsx = some (.archive entries))
    (hne : hyper_target_path tdsx ≠ tdsx)
    (hlast : ((entries.filter (fun e => List.isSuffixOf (str ".hyper") e.1)).map
      (fun e => e.2)).getLast? = some c) :
    (extract_hyper_files fs tdsx).1 = .ok (hyper_target_path tdsx) ∧
    Fs.lookup (extract_hyper_files fs tdsx).2 (hyper_target_path tdsx) = some (.bytes c) := by
  have hnonempty : ((entries.filter (fun e => List.isSuffixOf (str ".hyper") e.1)).map
      (fun e => e.2)).isEmpty = false := by
    cases hl : (entries.filter (fun e => List.isSuffixOf (str ".hyper") e.1)).map
      (fun e => e.2) with
    | nil => rw [hl] at hlast; simp [List.getLast?] at hlast
    | cons a as => simp
  simp only [extract_hyper_files, harch, hnonempty, Bool.false_eq_true, if_false]
  refine ⟨trivial, ?_⟩
  rw [Fs.lookup_remove_ne _ _ _ hne, Fs.lookup_foldl_write, hlast]

/-- Claim C2 witness: the amended statement at the concrete two-entry
archive of the counterexample. -/
theorem claim_C2_witness :
    Fs.lookup (extract_hyper_files fsC2 (str "a.tdsx")).2 (hyper_target_path (str "a.tdsx"))
      = some (.bytes [2]) :=
  (claim_C2_last_match fsC2 (str "a.tdsx")
    [(str "x.hyper", [1]), (str "y.hyper", [2])] [2]
    (by decide) (by decide) (by decide)).2

/-- Claim C3 (confirmed): target-name derivation is a pure deterministic
function of (prefix, schema, name) — identical inputs give identical
identifiers — and the documented example holds: name `Q1 Sales`, prefix
`bi`, schema `analytics` yield table `BI_Q1_SALES` in schema `ANALYTICS`. -/
theorem claim_C3_target_naming :
    (∀ (p p' : Option PyStr) (s s' n n' : PyStr), p = p' → s = s' → n = n' →
      derive_target_name p s n = derive_target_name p' s' n') ∧
    derive_target_name (some (str "bi")) (str "analytics") (str "Q1 Sales")
      = (str "BI_Q1_SALES", str "ANALYTICS") := by
  constructor
  · intro p p' s s' n n' hp hs hn
    rw [hp, hs, hn]
  · decide

/-- Claim C3 witness: the deterministic-naming part applied at the
documented example inputs. -/
theorem claim_C3_witness :
    derive_target_name (some (str "bi")) (str "analytics") (str "Q1 Sales")
      = derive_target_name (some (str "bi")) (str "analytics") (str "Q1 Sales") :=
  claim_C3_target_naming.1 (some (str "bi")) (some (str "bi"))
    (str "analytics") (str "analytics") (str "Q1 Sales") (str "Q1 Sales") rfl rfl rfl

/-- Claim C4, counterexample: the columnar-file name is derived from the
data source name by lower-casing and space-to-underscore replacement, which
is not injective: the distinct names `A B` and `a_b` yield the same local
parquet path. -/
theorem claim_C4_counterexample :
    str "A B" ≠ str "a_b" ∧
    parquet_file_name (str "A B") = parquet_file_name (str "a_b") := by decide

/-- Claim C4 as amended: the parquet path is a pure function of the
normalized (lower-cased, space-to-underscore) data source name; items whose
normalized names differ receive distinct parquet paths, while distinct raw
names that normalize identically collide (previous theorem). -/
theorem claim_C4_distinct_normalized (a b : PyStr)
    (hne : replaceChar ' ' '_' (pyLower a) ≠ replaceChar ' ' '_' (pyLower b)) :
    parquet_file_name a ≠ parquet_file_name b := by
  intro heq
  exact hne (List.append_cancel_right heq)

/-- Claim C4 witness: the amended statement at two names with different
normalizations. -/
theorem claim_C4_witness :
    parquet_file_name (str "Alpha") ≠ parquet_file_name (str "Beta") :=
  claim_C4_distinct_normalized (str "Alpha") (str "Beta") (by decide)

/-- Claim C5 (confirmed): for an archive with exactly one matching entry,
extraction succeeds, the returned path holds exactly that entry's bytes,
and the archive file no longer exists afterwards. -/
theorem claim_C5_single_entry (fs : Fs) (tdsx : PyStr) (entries : List (PyStr × List Nat))
    (c : List Nat)
    (harch : Fs.lookup fs tdsx = some (.archive entries))
    (hone : (entries.filter (fun e => List.isSuffixOf (str ".hyper") e.1)).map
      (fun e => e.2) = [c])
    (hne : hyper_target_path tdsx ≠ tdsx) :
    (extract_hyper_files fs tdsx).1 = .ok (hyper_target_path tdsx) ∧
    Fs.lookup (extract_hyper_files fs tdsx).2 (hyper_target_path tdsx) = some (.bytes c) ∧
    Fs.lookup (extract_hyper_files fs tdsx).2 tdsx = none := by
  simp only [extract_hyper_files, harch, hone, List.isEmpty_cons, Bool.false_eq_true,
    if_false, List.foldl_cons, List.foldl_nil]
  refine ⟨trivial, ?_, ?_⟩
  · rw [Fs.lookup_remove_ne _ _ _ hne, Fs.lookup_write_self]
  · rw [Fs.lookup_remove_self]

/-- Claim C5 witness: a one-entry archive, extracted. -/
theorem claim_C5_witness :
    Fs.lookup (extract_hyper_files [(str "q1 sales.tdsx",
        .archive [(str "Data/Extract/x.hyper", [3, 4])])] (str "q1 sales.tdsx")).2
      (hyper_target_path (str "q1 sales.tdsx")) = some (.bytes [3, 4]) :=
  (claim_C5_single_entry [(str "q1 sales.tdsx", .archive [(str "Data/Extract/x.hyper", [3, 4])])]
    (str "q1 sales.tdsx") [(str "Data/Extract/x.hyper", [3, 4])] [3, 4]
    (by decide) (by decide) (by decide)).2.1

/-- Claim C6 (confirmed): for an archive with zero matching entries the
extraction fails — the `FileNotFoundError("No .hyper file found in the .tdsx
archive.")`, re-wrapped by the blanket handler, is the spec's
`ExtractionError` — and the archive file still exists afterwards (the
`os.remove` cleanup is reached only on success). -/
theorem claim_C6_no_match (fs : Fs) (tdsx : PyStr) (entries : List (PyStr × List Nat))
    (harch : Fs.lookup fs tdsx = some (.archive entries))
    (hnone : entries.filter (fun e => List.isSuffixOf (str ".hyper") e.1) = []) :
    (extract_hyper_files fs tdsx).1 = .error (.pyException
      (str "An error occurred while extracting .hyper files: No .hyper file found in the .tdsx archive.")) ∧
    Fs.lookup (extract_hyper_files fs tdsx).2 tdsx = some (.archive entries) := by
  simp only [extract_hyper_files, harch, hnone, List.map_nil, List.foldl_nil,
    List.isEmpty_nil, if_true]
  exact ⟨trivial, trivial⟩

/-- Claim C6 witness: an archive holding only a non-hyper entry. -/
theorem claim_C6_witness :
    Fs.lookup (extract_hyper_files [(str "empty.tdsx", .archive [(str "meta.xml", [0])])]
      (str "empty.tdsx")).2 (str "empty.tdsx") = some (.archive [(str "meta.xml", [0])]) :=
  (claim_C6_no_match [(str "empty.tdsx", .archive [(str "meta.xml", [0])])]
    (str "empty.tdsx") [(str "meta.xml", [0])] (by decide) (by decide)).2

/-- Claim C7 (confirmed): whenever `pq_to_snowflake` fails — the input file
missing, or any of the seven warehouse commands failing, the staging PUT
included — the local parquet file's filesystem entry is exactly what it was
before the call; it is removed only when the whole sequence succeeds. -/
theorem claim_C7_retain_on_failure (wh : Nat → Bool) (fs : Fs) (tt ts pf : PyStr) :
    (isOkE (pq_to_snowflake wh fs tt ts pf).1 = false →
      Fs.lookup (pq_to_snowflake wh fs tt ts pf).2.2 pf = Fs.lookup fs pf) ∧
    (isOkE (pq_to_snowflake wh fs tt ts pf).1 = true →
      Fs.lookup (pq_to_snowflake wh fs tt ts pf).2.2 pf = none) := by
  by_cases hmiss : (Fs.lookup fs pf).isNone
  · refine ⟨fun _ => ?_, fun hok => ?_⟩
    · simp [pq_to_snowflake, hmiss]
    · simp [pq_to_snowflake, hmiss, isOkE] at hok
  · by_cases hr : (runCmds wh (snowflakeCmds tt ts pf) 0).1
    · refine ⟨fun hfail => ?_, fun _ => ?_⟩
      · simp [pq_to_snowflake, hmiss, hr, isOkE] at hfail
      · simp [pq_to_snowflake, hmiss, hr, Fs.lookup_remove_self]
    · refine ⟨fun _ => ?_, fun hok => ?_⟩
      · simp [pq_to_snowflake, hmiss, hr]
      · simp [pq_to_snowflake, hmiss, hr, isOkE] at hok

/-- A warehouse oracle whose fourth command — the staging PUT — fails. -/
def whFailPut : Nat → Bool := fun i => decide (i ≠ 3)

/-- Claim C7 witness: a load failing at the staging-upload step leaves the
parquet file untouched. -/
theorem claim_C7_witness :
    Fs.lookup (pq_to_snowflake whFailPut [(str "alpha.parquet", .bytes [7])]
      (str "ALPHA") (str "ANALYTICS") (str "alpha.parquet")).2.2 (str "alpha.parquet")
    = Fs.lookup [(str "alpha.parquet", .bytes [7])] (str "alpha.parquet") :=
  (claim_C7_retain_on_failure whFailPut [(str "alpha.parquet", .bytes [7])]
    (str "ALPHA") (str "ANALYTICS") (str "alpha.parquet")).1 (by decide)

/-- Claim C8 (confirmed): every successful load issues exactly the seven
warehouse commands of lines 197-232, in source order — create schema if
absent, create-or-replace file format, create-or-replace stage, PUT the
file, drop any existing table, create the table from the schema inferred
case-insensitively from the staged file, and COPY INTO with
case-insensitive column matching and purge — each a separate command (the
model issues no transaction commands around them). -/
theorem claim_C8_command_sequence (wh : Nat → Bool) (fs : Fs) (tt ts pf : PyStr)
    (hok : isOkE (pq_to_snowflake wh fs tt ts pf).1 = true) :
    (pq_to_snowflake wh fs tt ts pf).2.1 =
      [ SqlCmd.createSchemaIfNotExists ts,
        SqlCmd.createTempFileFormatParquet (tt ++ str "_parquet_fmt"),
        SqlCmd.createTempStage ts (str "stage_" ++ pyLower ts ++ str "_" ++ tt)
          (tt ++ str "_parquet_fmt"),
        SqlCmd.putFile pf (str "stage_" ++ pyLower ts ++ str "_" ++ tt),
        SqlCmd.dropTableIfExists ts tt,
        SqlCmd.createTableInferSchemaIgnoreCase ts tt
          (str "stage_" ++ pyLower ts ++ str "_" ++ tt) (tt ++ str "_parquet_fmt"),
        SqlCmd.copyIntoMatchCaseInsensitivePurge ts tt
          (str "stage_" ++ pyLower ts ++ str "_" ++ tt) (tt ++ str "_parquet_fmt") ] := by
  by_cases hmiss : (Fs.lookup fs pf).isNone
  · simp [pq_to_snowflake, hmiss, isOkE] at hok
  · by_cases hr : (runCmds wh (snowflakeCmds tt ts pf) 0).1
    · have hcmds := runCmds_ok_eq wh (snowflakeCmds tt ts pf) 0 hr
      simp [pq_to_snowflake, hmiss, hr, hcmds]
      simp [snowflakeCmds]
    · simp [pq_to_snowflake, hmiss, hr, isOkE] at hok

/-- Claim C8 witness: the command sequence of a fully successful load. -/
theorem claim_C8_witness :
    (pq_to_snowflake whAllOk [(str "p.parquet", .bytes [1])]
      (str "T") (str "S") (str "p.parquet")).2.1 =
      [ SqlCmd.createSchemaIfNotExists (str "S"),
        SqlCmd.createTempFileFormatParquet (str "T" ++ str "_parquet_fmt"),
        SqlCmd.createTempStage (str "S") (str "stage_" ++ pyLower (str "S") ++ str "_" ++ str "T")
          (str "T" ++ str "_parquet_fmt"),
        SqlCmd.putFile (str "p.parquet") (str "stage_" ++ pyLower (str "S") ++ str "_" ++ str "T"),
        SqlCmd.dropTableIfExists (str "S") (str "T"),
        SqlCmd.createTableInferSchemaIgnoreCase (str "S") (str "T")
          (str "stage_" ++ pyLower (str "S") ++ str "_" ++ str "T") (str "T" ++ str "_parquet_fmt"),
        SqlCmd.copyIntoMatchCaseInsensitivePurge (str "S") (str "T")
          (str "stage_" ++ pyLower (str "S") ++ str "_" ++ str "T") (str "T" ++ str "_parquet_fmt") ] :=
  claim_C8_command_sequence whAllOk [(str "p.parquet", .bytes [1])]
    (str "T") (str "S") (str "p.parquet") (by decide)

/-- Claim C9 (confirmed): the conversion deletes the extract file only
after the dump succeeded; on any failure — engine start, the copy command,
or the filesystem removal itself — the extract file's entry is exactly what
it was before the call. -/
theorem claim_C9_retain_extract (env : HyperEnv) (fs : Fs) (hy pf : PyStr) (hne : hy ≠ pf) :
    (isOkE (export_hyper_to_parquet env fs hy pf).1 = false →
      Fs.lookup (export_hyper_to_parquet env fs hy pf).2 hy = Fs.lookup fs hy) ∧
    (isOkE (export_hyper_to_parquet env fs hy pf).1 = true →
      Fs.lookup (export_hyper_to_parquet env fs hy pf).2 hy = none) := by
  cases hstart : env.startOk with
  | false =>
    refine ⟨fun _ => ?_, fun hok => ?_⟩
    · simp [export_hyper_to_parquet, hstart]
    · simp [export_hyper_to_parquet, hstart, isOkE] at hok
  | true =>
    cases hdump : env.dumpOk with
    | false =>
      refine ⟨fun _ => ?_, fun hok => ?_⟩
      · simp [export_hyper_to_parquet, hstart, hdump]
      · simp [export_hyper_to_parquet, hstart, hdump, isOkE] at hok
    | true =>
      by_cases hex : (Fs.lookup (Fs.write fs pf (.bytes env.dumpContent)) hy).isSome
      · refine ⟨fun hfail => ?_, fun _ => ?_⟩
        · simp [export_hyper_to_parquet, hstart, hdump, hex, isOkE] at hfail
        · simp [export_hyper_to_parquet, hstart, hdump, hex, Fs.lookup_remove_self]
      · have hex2 : (Fs.lookup fs hy).isSome = false := by
          have hw := Fs.lookup_write_ne fs pf hy (.bytes env.dumpContent) hne
          rw [hw] at hex
          simpa using hex
        refine ⟨fun _ => ?_, fun hok => ?_⟩
        · simp [export_hyper_to_parquet, hstart, hdump, hex2,
            Fs.lookup_write_ne _ _ _ _ hne]
        · simp [export_hyper_to_parquet, hstart, hdump, hex2,
            Fs.lookup_write_ne _ _ _ _ hne, isOkE] at hok

/-- An engine whose copy command fails. -/
def henvFailDump : HyperEnv := { startOk := true, dumpOk := false, dumpContent := [] }

/-- Claim C9 witness: a failed dump leaves the extract file untouched. -/
theorem claim_C9_witness :
    Fs.lookup (export_hyper_to_parquet henvFailDump [(str "alpha.hyper", .bytes [5])]
      (str "alpha.hyper") (str "alpha.parquet")).2 (str "alpha.hyper")
    = Fs.lookup [(str "alpha.hyper", .bytes [5])] (str "alpha.hyper") :=
  (claim_C9_retain_extract henvFailDump [(str "alpha.hyper", .bytes [5])]
    (str "alpha.hyper") (str "alpha.parquet") (by decide)).1 (by decide)

/-- Claim C10 (confirmed): a present, parseable `config.yml` whose
top-level mapping lacks the `config` key makes `get_configs` raise
`KeyError` — which is neither of its two documented and handled error
kinds (`FileNotFoundError`, `yaml.YAMLError`). -/
theorem claim_C10_keyerror (doc : List (PyStr × List (PyStr × PyStr)))
    (hmiss : alookup doc (str "config") = none) :
    get_configs (.parsed doc) = .error (.keyError (str "config")) ∧
    (∀ m, get_configs (.parsed doc) ≠ .error (.fileNotFound m)) ∧
    (∀ m, get_configs (.parsed doc) ≠ .error (.yamlError m)) := by
  have h : get_configs (.parsed doc) = .error (.keyError (str "config")) := by
    simp [get_configs, hmiss]
  refine ⟨h, fun m hcontra => ?_, fun m hcontra => ?_⟩
  · rw [h] at hcontra
    simp at hcontra
  · rw [h] at hcontra
    simp at hcontra

/-- Claim C10 witness: a config file whose only top-level key is
`settings`. -/
theorem claim_C10_witness :
    get_configs (.parsed [(str "settings", [])]) = .error (.keyError (str "config")) :=
  (claim_C10_keyerror [(str "settings", [])] (by decide)).1
